import Mathlib

/-!
# Verification of the xtb-api-client protocol engine (src/client.ts)

A shallow embedding of the client engine of `src/client.ts`:
the request/response correlator (`BaseClient.sendCommandAndAwaitResponse`),
the keepalive loop (`BaseClient` constructor / `ping` / `close`), the
streaming dispatcher (`StreamingXTBClient.processMessage`,
`subscribeToStream`, `unsubscribeFromStream`), and the command-session
wrappers (`XTBClient.login/logout/getAllSymbols/getSymbol/
startTradeTransaction/getTradeTransactionStatus`).

Payloads are pass-through values in the source, so they are embedded as
opaque strings.  JavaScript promises are embedded as a single-settlement
state (`PromiseState`): a `resolve`/`reject` on an already settled promise
is a silent no-op, exactly the ECMAScript behaviour.  Node's
`EventEmitter.emit` snapshots the listener array before invoking it, so a
listener removed during an emit still receives the current event; message
delivery is therefore a `map` over the listeners registered at arrival
time.
-/

namespace XTB

/-- A JavaScript `Error`, identified by its message (the source only ever
constructs `new Error(msg)`). -/
structure JsError where
  message : String
deriving DecidableEq, Repr

/-- Single-settlement state of a JS `Promise`. -/
inductive PromiseState (α : Type) where
  | pending
  | resolved (value : α)
  | rejected (e : JsError)
deriving DecidableEq, Repr

/-- `resolve(v)`: settles a pending promise, silent no-op otherwise. -/
def PromiseState.resolveOnce {α : Type} (p : PromiseState α) (v : α) : PromiseState α :=
  match p with
  | .pending => .resolved v
  | _ => p

/-- `reject(e)`: settles a pending promise, silent no-op otherwise. -/
def PromiseState.rejectOnce {α : Type} (p : PromiseState α) (e : JsError) : PromiseState α :=
  match p with
  | .pending => .rejected e
  | _ => p

/-- An inbound frame as parsed by `JSON.parse` in the listeners.  Correlated
replies carry `customTag`/`status`/`returnData` or the error fields; push
frames carry `command`/`data`.  Absent JSON fields are `none`. -/
structure InboundFrame where
  customTag : Option String := none
  command : Option String := none
  status : Option Bool := none
  returnData : Option String := none
  errorCode : Option String := none
  errorDescr : Option String := none
  data : Option String := none
deriving DecidableEq, Repr

/-- One in-flight correlated call of `sendCommandAndAwaitResponse`
(client.ts lines 93-118): its `requestId` tag, the outer promise, whether
its `onData` listener is still registered on the socket, and whether the
`setTimeout` (line 113) has been scheduled. -/
structure PendingCall where
  tag : String
  result : PromiseState InboundFrame := .pending
  listenerActive : Bool := true
  timeoutScheduled : Bool := false
deriving DecidableEq, Repr

/-- The `onData` listener (client.ts lines 102-108): on a message whose
parsed `customTag` equals this call's `requestId`, remove the listener
(`this._ws.off`) and resolve the outer promise with the whole parsed
response.  A listener that is not registered never runs. -/
def onDataStep (frame : InboundFrame) (c : PendingCall) : PendingCall :=
  if c.listenerActive ∧ frame.customTag = some c.tag then
    { c with listenerActive := false, result := c.result.resolveOnce frame }
  else c

/-- Arrival of one inbound frame: Node's `emit` hands the frame to every
listener registered at arrival time, independently. -/
def deliverMessage (frame : InboundFrame) (calls : List PendingCall) : List PendingCall :=
  calls.map (onDataStep frame)

/-- The timeout callback (client.ts lines 113-116): `this._ws.off` (a no-op
if the listener is already removed) and `reject(new Error('Timeout'))` (a
silent no-op if the promise is already settled). -/
def timeoutStep (c : PendingCall) : PendingCall :=
  { c with listenerActive := false, result := c.result.rejectOnce ⟨"Timeout"⟩ }

/-- Issuing a correlated call (client.ts lines 99-109): the tag is
`Math.random().toString(36)` — an externally drawn string with no
uniqueness contract and no comparison against outstanding tags — and the
fresh `onData` listener is registered with `this._ws.on('message', ...)`.
The drawn string is the `requestId` argument. -/
def issueCall (requestId : String) (calls : List PendingCall) : List PendingCall :=
  calls ++ [{ tag := requestId }]

/-- The outcome of the awaited throttled send (client.ts line 111). -/
inductive SendOutcome where
  | ok
  | err (e : JsError)
deriving DecidableEq, Repr

/-- What happens to the call after `await this._sendThrottled(message)`
(client.ts lines 111-116).  On success the timeout is scheduled.  On
rejection the `await` throws inside the `async` executor of
`new Promise(async (resolve, reject) => ...)`; an exception thrown there
does NOT reject the promise under construction — it only rejects the
executor's own (unobserved) promise.  So the outer promise stays pending,
the `onData` listener stays registered, and the `setTimeout` line is never
reached. -/
def afterSend (outcome : SendOutcome) (c : PendingCall) : PendingCall :=
  match outcome with
  | .ok => { c with timeoutScheduled := true }
  | .err _ => c

/-- `(0.5).toString(36)` in JavaScript: a concrete value of
`Math.random().toString(36)` used to exhibit a tag collision. -/
def collisionDraw : String := "0.i"

/-- Session-level state of a `BaseClient`: the keepalive interval handle
(`_pingInterval`), the socket, the emitted `close` event, and the table of
in-flight correlated calls. -/
structure BaseState where
  pingIntervalActive : Bool := false
  wsOpen : Bool := true
  closeEmitted : Bool := false
  calls : List PendingCall := []
deriving DecidableEq, Repr

/-- `BaseClient.close` (client.ts lines 147-153): clear the ping interval
if set, `this._ws.close()`, `this.emit('close')`.  Nothing else: the
in-flight calls are not touched. -/
def close (s : BaseState) : BaseState :=
  { s with pingIntervalActive := false, wsOpen := false, closeEmitted := true }

/-! ## Keepalive loop (client.ts lines 47-57)

The `open` handler runs `await this.ping()` with no try/catch, then
installs `setInterval` with each tick's `await this.ping()` wrapped in
try/catch + `console.error`.  If the first ping's promise rejects, the
`await` throws inside the `async` event listener: the rejection is
unhandled (no catch, and `emit` discards the listener's returned promise)
and the `setInterval` line is never reached. -/

/-- Outcome of one run of the `open` handler, given the success of the
initial ping and the outcomes of however many interval ticks occur. -/
structure KeepaliveRun where
  pingsAttempted : Nat
  errorsLogged : Nat
  intervalEstablished : Bool
  unhandledRejection : Bool
deriving DecidableEq, Repr

/-- `config?.pingInterval ?? 10000` (client.ts line 56). -/
def pingIntervalOf (cfg : Option Nat) : Nat := cfg.getD 10000

/-- The `open` handler (client.ts lines 47-57).  `firstPingOk` is the
settlement of the initial `this.ping()` promise; `ticks` the settlements
of the pings issued by the interval ticks that occur. -/
def openHandler (firstPingOk : Bool) (ticks : List Bool) : KeepaliveRun :=
  if firstPingOk then
    { pingsAttempted := 1 + ticks.length
      errorsLogged := (ticks.filter (fun b => b = false)).length
      intervalEstablished := true
      unhandledRejection := false }
  else
    { pingsAttempted := 1
      errorsLogged := 0
      intervalEstablished := false
      unhandledRejection := true }

/-! ## Outbound streaming frames (client.ts lines 125-131, 383-400)

In the streaming methods the extra arguments are spread at the top level
of the frame (`{ command, streamSessionId, ...addtionalArguments }`), so a
frame is a command name, an optional `streamSessionId` field, and a list
of extra top-level key/value pairs. -/

/-- An outbound frame of the streaming surface. -/
structure StreamFrame where
  command : String
  streamSessionId : Option String := none
  extras : List (String × String) := []
deriving DecidableEq, Repr

/-- `StreamingXTBClient.subscribeToStream` (client.ts lines 383-393): throw
`Error('No stream session ID')` when `_streamSessionId` is null, else send
`{ command, streamSessionId, ...addtionalArguments }`. -/
def subscribeToStream (sid : Option String) (commandName : String)
    (extras : List (String × String)) : Except JsError StreamFrame :=
  match sid with
  | none => .error ⟨"No stream session ID"⟩
  | some id => .ok { command := commandName, streamSessionId := some id, extras := extras }

/-- `StreamingXTBClient.unsubscribeFromStream` (client.ts lines 395-400):
send `{ command, ...addtionalArguments }` — no `streamSessionId` field is
attached and `_streamSessionId` is not consulted. -/
def unsubscribeFromStream (commandName : String)
    (extras : List (String × String)) : StreamFrame :=
  { command := commandName, extras := extras }

/-- `BaseClient.ping` (client.ts lines 125-131): send
`{ command: 'ping', ...(this._streamSessionId ? { streamSessionId } : {}) }`
— the identifier is included exactly when it is bound. -/
def pingFrame (sid : Option String) : StreamFrame :=
  { command := "ping", streamSessionId := sid }

/-! ## Streaming inbound dispatch (client.ts lines 342-381) -/

/-- Result of `StreamingXTBClient.processMessage` on one frame: either an
`emit` on the matched channel, or the `console.warn('Unknown message type
received', message)` of the `default` branch. -/
inductive ProcessResult where
  | emitted (channel : String) (payload : Option String)
  | warned
deriving DecidableEq, Repr

/-- `StreamingXTBClient.processMessage` (client.ts lines 351-381): switch
on the parsed frame's `command` field; a frame without a `command` field
(for instance a correlated reply) falls to the `default` branch. -/
def processMessage (f : InboundFrame) : ProcessResult :=
  match f.command with
  | some "keepAlive" => .emitted "keepAliveFromServer" f.data
  | some "balance" => .emitted "balance" f.data
  | some "candle" => .emitted "candle" f.data
  | some "news" => .emitted "news" f.data
  | some "profits" => .emitted "profits" f.data
  | some "tickPrices" => .emitted "tickPrices" f.data
  | some "trade" => .emitted "trade" f.data
  | some "tradeStatus" => .emitted "tradeStatus" f.data
  | _ => .warned

/-- Arrival of one frame at a `StreamingXTBClient`: the constructor
(client.ts lines 342-344) registers `processMessage` on `'message'`, and
each in-flight call's `onData` is registered there too, so every frame is
handed to all of them. -/
def streamingDeliver (f : InboundFrame) (calls : List PendingCall) :
    List PendingCall × ProcessResult :=
  (deliverMessage f calls, processMessage f)

/-! ## Send Governor (client.ts lines 42-46)

The governor itself is the external `p-throttle` dependency, configured in
the source with `limit: 1` and `interval: config?.commandThrottleInterval
?? 250`; its implementation is not part of this repository's sources. -/

/-- `config?.commandThrottleInterval ?? 250` (client.ts line 44). -/
def commandThrottleIntervalOf (cfg : Option Nat) : Nat := cfg.getD 250

/-- Modelled from the spec: the Send Governor's dispatch discipline
(`p-throttle`, absent from src/) per spec §4.2 — a single-concurrency FIFO
queue in which a frame submitted at time `t` is dispatched at `t` if no
dispatch happened yet, and otherwise no earlier than `interval` after the
previous dispatch.  `subs` lists `(submissionTime, frameId)` in submission
order; `last` is the time of the previous dispatch, if any; the result
lists `(dispatchTime, frameId)` in dispatch order. -/
def govDispatch (interval : Nat) : Option Nat → List (Nat × Nat) → List (Nat × Nat)
  | _, [] => []
  | none, (t, i) :: rest => (t, i) :: govDispatch interval (some t) rest
  | some l, (t, i) :: rest =>
      (max t (l + interval), i) :: govDispatch interval (some (max t (l + interval))) rest

/-! ## Command-session wrappers (client.ts lines 190-335) -/

/-- The `arguments` object of an outbound command frame.  Business payloads
(`TradeCommand` bodies and the like) are pass-through and embedded as
opaque strings. -/
inductive CmdArguments where
  | noArgs
  | symbolArg (symbol : String)
  | transactionArg (transaction : String)
  | orderArg (order : Nat)
  | loginArgs (userId password appName : String)
deriving DecidableEq, Repr

/-- An outbound frame of the command surface: `{ command, arguments? }`
(the correlator then adds `customTag`). -/
structure CommandFrame where
  command : String
  arguments : CmdArguments := .noArgs
deriving DecidableEq, Repr

/-- `XTBClient.getAllSymbols` (client.ts lines 240-257) up to its send:
throw `Error('Not logged in')` before any submission when not logged in,
else submit `{ command: 'getAllSymbols' }`. -/
def getAllSymbols (isLoggedIn : Bool) : Except JsError CommandFrame :=
  if isLoggedIn then .ok { command := "getAllSymbols" }
  else .error ⟨"Not logged in"⟩

/-- `XTBClient.getSymbol` (client.ts lines 259-279) up to its send. -/
def getSymbol (isLoggedIn : Bool) (symbol : String) : Except JsError CommandFrame :=
  if isLoggedIn then .ok { command := "getSymbol", arguments := .symbolArg symbol }
  else .error ⟨"Not logged in"⟩

/-- `XTBClient.startTradeTransaction` (client.ts lines 281-301) up to its
send. -/
def startTradeTransaction (isLoggedIn : Bool) (transaction : String) :
    Except JsError CommandFrame :=
  if isLoggedIn then
    .ok { command := "tradeTransaction", arguments := .transactionArg transaction }
  else .error ⟨"Not logged in"⟩

/-- `XTBClient.getTradeTransactionStatus` (client.ts lines 303-323) up to
its send. -/
def getTradeTransactionStatus (isLoggedIn : Bool) (order : Nat) :
    Except JsError CommandFrame :=
  if isLoggedIn then
    .ok { command := "getTradeTransactionStatus", arguments := .orderArg order }
  else .error ⟨"Not logged in"⟩

/-- The login-related session flags of an `XTBClient`. -/
structure SessState where
  isLoggedIn : Bool := false
  streamSessionId : Option String := none
deriving DecidableEq, Repr

/-- The server's reply to `login`, as read by client.ts lines 223-226: the
`status` flag, and on success the `streamSessionId` field. -/
inductive LoginReply where
  | success (streamSessionId : String)
  | failure (errorCode errorDescr : String)
deriving DecidableEq, Repr

/-- `XTBClient.login` reply handling (client.ts lines 223-226): only a
reply with `status: true` sets `_isLoggedIn = true` and stores
`_streamSessionId`; a failed reply changes nothing. -/
def loginApplyReply (s : SessState) (r : LoginReply) : SessState :=
  match r with
  | .success sid => { s with isLoggedIn := true, streamSessionId := some sid }
  | .failure _ _ => s

/-- Fate of the logout reply: replied with some status, or never arrived. -/
inductive ReplyOutcome where
  | replied (status : Bool)
  | neverArrived
deriving DecidableEq, Repr

/-- `XTBClient.logout` (client.ts lines 231-238): submit
`{ command: 'logout' }` (the returned promise is not awaited) and set
`_isLoggedIn = false` immediately. -/
def logoutSubmit (s : SessState) : SessState × CommandFrame :=
  ({ s with isLoggedIn := false }, { command := "logout" })

/-- Settlement of the logout reply promise: client.ts attaches no handler
to it that touches session state, so the session flags are unchanged
whatever the reply. -/
def logoutApplyReply (s : SessState) (_r : ReplyOutcome) : SessState := s

/-! ## Concrete inputs used to evaluate the embedding -/

/-- A success reply bearing the colliding tag `"0.i"`. -/
def collisionReply : InboundFrame :=
  { customTag := some collisionDraw, status := some true, returnData := some "r" }

/-- A session with the keepalive timer running and the calls tagged `"t1"`
and `"t2"` in flight. -/
def twoPendingSession : BaseState :=
  { pingIntervalActive := true, calls := [{ tag := "t1" }, { tag := "t2" }] }

/-- A success reply tagged `"t1"`; like every correlated reply it carries
no `command` field. -/
def replyT1 : InboundFrame :=
  { customTag := some "t1", status := some true, returnData := some "rd" }

/-- The subscribe frame for (`getTickPrices`, `EURUSD`) under the
stream-session identifier `"abc"`. -/
def tickSubscribeFrame : StreamFrame :=
  { command := "getTickPrices", streamSessionId := some "abc",
    extras := [("symbol", "EURUSD")] }

end XTB

/-! ## Claims -/

namespace XTB

/-- Claim C1, evaluated at the failing input.  The source draws each tag as
`Math.random().toString(36)` with no uniqueness check against outstanding
tags; `Math.random()` may return `0.5` twice, giving the tag `"0.i"` to two
calls in flight at once.  A single reply bearing that tag then resolves
BOTH calls (Node's emit hands the frame to every registered listener), so
the generator does not guarantee uniqueness among outstanding tags and the
cross-talk the claim rules out occurs. -/
theorem tag_collision_resolves_two_calls :
    (issueCall collisionDraw (issueCall collisionDraw [])).map PendingCall.tag
      = [collisionDraw, collisionDraw]
    ∧ (deliverMessage collisionReply
        (issueCall collisionDraw (issueCall collisionDraw []))).map PendingCall.result
      = [.resolved collisionReply, .resolved collisionReply] := by
  exact ⟨rfl, rfl⟩

/-- Claim C2: whichever of the timeout and the matching reply happens first
settles the call (rejection with the `Timeout` error, resp. resolution with
the reply) and removes the listener; the later of the two is a silent
no-op — delivering a matching reply after the timeout changes nothing, and
the timeout firing after resolution changes nothing. -/
theorem timeout_reply_race_first_wins (c : PendingCall) (f : InboundFrame)
    (hpend : c.result = .pending) (hact : c.listenerActive = true)
    (htag : f.customTag = some c.tag) :
    (timeoutStep c).result = .rejected ⟨"Timeout"⟩
    ∧ (timeoutStep c).listenerActive = false
    ∧ onDataStep f (timeoutStep c) = timeoutStep c
    ∧ (onDataStep f c).result = .resolved f
    ∧ timeoutStep (onDataStep f c) = onDataStep f c := by
  refine ⟨?_, ?_, ?_, ?_, ?_⟩
  · simp [timeoutStep, hpend, PromiseState.rejectOnce]
  · simp [timeoutStep]
  · simp [onDataStep, timeoutStep]
  · simp [onDataStep, hact, htag, hpend, PromiseState.resolveOnce]
  · simp [onDataStep, timeoutStep, hact, htag, hpend, PromiseState.resolveOnce,
      PromiseState.rejectOnce]

/-- Witness for C2 at the call tagged `"t1"` and the reply tagged `"t1"`. -/
theorem timeout_reply_race_first_wins_witness :
    (({ tag := "t1" } : PendingCall).result = .pending)
    ∧ (({ tag := "t1" } : PendingCall).listenerActive = true)
    ∧ (({ customTag := some "t1" } : InboundFrame).customTag
        = some ({ tag := "t1" } : PendingCall).tag)
    ∧ ((timeoutStep { tag := "t1" }).result = .rejected ⟨"Timeout"⟩
      ∧ (timeoutStep { tag := "t1" }).listenerActive = false
      ∧ onDataStep { customTag := some "t1" } (timeoutStep { tag := "t1" })
          = timeoutStep { tag := "t1" }
      ∧ (onDataStep { customTag := some "t1" } { tag := "t1" }).result
          = .resolved { customTag := some "t1" }
      ∧ timeoutStep (onDataStep { customTag := some "t1" } { tag := "t1" })
          = onDataStep { customTag := some "t1" } { tag := "t1" }) :=
  ⟨rfl, rfl, rfl,
    timeout_reply_race_first_wins { tag := "t1" } { customTag := some "t1" } rfl rfl rfl⟩

/-- Claim C3, evaluated at the failing input.  When the awaited throttled
send rejects (here with a `SendError`), the exception is thrown inside the
`async` executor of `new Promise(async ...)`, which does not reject the
promise under construction: the call's promise stays pending forever (it is
never rejected with the send error), the `onData` listener stays registered
(dangling), and the timeout is never scheduled. -/
theorem send_failure_leaves_call_dangling :
    (afterSend (.err ⟨"SendError"⟩) { tag := "t1" }).result = .pending
    ∧ (afterSend (.err ⟨"SendError"⟩) { tag := "t1" }).result
        ≠ .rejected ⟨"SendError"⟩
    ∧ (afterSend (.err ⟨"SendError"⟩) { tag := "t1" }).listenerActive = true
    ∧ (afterSend (.err ⟨"SendError"⟩) { tag := "t1" }).timeoutScheduled = false := by
  refine ⟨rfl, ?_, rfl, rfl⟩
  intro h
  simp [afterSend] at h

/-- Claim C4, evaluated at the failing input: a session with two calls
pending at `close()`.  `close` clears the keepalive interval, closes the
socket and emits `close`, but leaves both pending calls exactly as they
were — still pending with their listeners registered — instead of failing
them with a `ConnectionClosedError`. -/
theorem close_leaves_pending_calls_pending :
    (close twoPendingSession).pingIntervalActive = false
    ∧ (close twoPendingSession).calls = [{ tag := "t1" }, { tag := "t2" }]
    ∧ (close twoPendingSession).calls.map PendingCall.result = [.pending, .pending]
    ∧ (close twoPendingSession).calls.map PendingCall.result
        ≠ [.rejected ⟨"ConnectionClosedError"⟩, .rejected ⟨"ConnectionClosedError"⟩] := by
  refine ⟨rfl, rfl, rfl, ?_⟩
  intro h
  simp [close, twoPendingSession] at h

/-- Counterexample to claim C5: with any bound stream-session identifier,
the unsubscribe frame built by `unsubscribeFromStream` for
(`stopTickPrices`, `EURUSD`) carries no `streamSessionId` field at all, so
not every streaming unsubscribe frame includes the identifier. -/
theorem unsubscribe_frame_lacks_stream_session_id :
    (unsubscribeFromStream "stopTickPrices" [("symbol", "EURUSD")]).streamSessionId
      = none := rfl

/-- Claim C5 as amended: while the stream-session identifier is bound,
every subscribe frame and every keepalive (ping) frame includes it, but
unsubscribe frames are sent without it. -/
theorem stream_session_id_attachment (sid : Option String) (id cmd : String)
    (extras : List (String × String)) (h : sid = some id) :
    subscribeToStream sid cmd extras
      = .ok { command := cmd, streamSessionId := some id, extras := extras }
    ∧ (pingFrame sid).streamSessionId = some id
    ∧ (unsubscribeFromStream cmd extras).streamSessionId = none := by
  subst h
  exact ⟨rfl, rfl, rfl⟩

/-- Witness for the amended C5 at identifier `"abc"` and channel command
`getTickPrices` with extra argument `symbol = EURUSD`. -/
theorem stream_session_id_attachment_witness :
    ((some "abc" : Option String) = some "abc")
    ∧ (subscribeToStream (some "abc") "getTickPrices" [("symbol", "EURUSD")]
        = .ok tickSubscribeFrame
      ∧ (pingFrame (some "abc")).streamSessionId = some "abc"
      ∧ (unsubscribeFromStream "getTickPrices" [("symbol", "EURUSD")]).streamSessionId
          = none) :=
  ⟨rfl, stream_session_id_attachment (some "abc") "abc" "getTickPrices"
    [("symbol", "EURUSD")] rfl⟩

/-- Counterexample to claim C6: on a streaming session, a reply frame whose
tag matches the pending call is not consumed — it is also handed to
`processMessage`, which, finding no recognized `command` field, produces
the unrecognized-command report (`console.warn` in the `default` branch)
that the claim says is never produced for such a frame. -/
theorem matched_reply_still_reported_unrecognized :
    ((streamingDeliver replyT1 [{ tag := "t1" }]).1.map PendingCall.result
      = [.resolved replyT1])
    ∧ (streamingDeliver replyT1 [{ tag := "t1" }]).2 = .warned := by
  exact ⟨rfl, rfl⟩

/-- Claim C6 as amended: an inbound frame whose tag matches a pending call
resolves that call with the whole frame carried through unchanged (success
or error variant alike), and since a correlated reply carries no `command`
field no channel listener fires for it; but on a streaming session the
frame is nonetheless also handed to the push dispatcher, which produces an
unrecognized-command report for it. -/
theorem matched_reply_resolution_and_dispatch (calls : List PendingCall)
    (f : InboundFrame) (c : PendingCall) (hmem : c ∈ calls)
    (hact : c.listenerActive = true) (hpend : c.result = .pending)
    (htag : f.customTag = some c.tag) (hcmd : f.command = none) :
    (onDataStep f c).result = .resolved f
    ∧ onDataStep f c ∈ (streamingDeliver f calls).1
    ∧ (streamingDeliver f calls).2 = .warned := by
  refine ⟨?_, ?_, ?_⟩
  · simp [onDataStep, hact, htag, hpend, PromiseState.resolveOnce]
  · exact List.mem_map_of_mem (onDataStep f) hmem
  · simp [streamingDeliver, processMessage, hcmd]

/-- Witness for the amended C6 at the call tagged `"t1"` and the matching
success reply. -/
theorem matched_reply_resolution_and_dispatch_witness :
    (({ tag := "t1" } : PendingCall) ∈ [({ tag := "t1" } : PendingCall)])
    ∧ (({ tag := "t1" } : PendingCall).listenerActive = true)
    ∧ (({ tag := "t1" } : PendingCall).result = .pending)
    ∧ (({ customTag := some "t1", status := some true } : InboundFrame).customTag
        = some ({ tag := "t1" } : PendingCall).tag)
    ∧ (({ customTag := some "t1", status := some true } : InboundFrame).command = none)
    ∧ ((onDataStep { customTag := some "t1", status := some true } { tag := "t1" }).result
        = .resolved { customTag := some "t1", status := some true }
      ∧ onDataStep { customTag := some "t1", status := some true } { tag := "t1" }
          ∈ (streamingDeliver { customTag := some "t1", status := some true }
              [{ tag := "t1" }]).1
      ∧ (streamingDeliver { customTag := some "t1", status := some true }
          [{ tag := "t1" }]).2 = .warned) :=
  ⟨List.mem_singleton.mpr rfl, rfl, rfl, rfl, rfl,
    matched_reply_resolution_and_dispatch [{ tag := "t1" }]
      { customTag := some "t1", status := some true } { tag := "t1" }
      (List.mem_singleton.mpr rfl) rfl rfl rfl rfl⟩

/-- Claim C7, evaluated at the failing input.  The initial `await
this.ping()` in the `open` handler is not guarded by try/catch: when it
fails, the rejection is unhandled (not logged by the handler) and the
`setInterval` line is never reached, so only that single ping is ever
attempted and the periodic loop never starts — even though two tick
periods' worth of outcomes are available.  The default period is
10000 ms. -/
theorem first_ping_failure_kills_keepalive :
    openHandler false [true, true]
      = { pingsAttempted := 1, errorsLogged := 0, intervalEstablished := false,
          unhandledRejection := true }
    ∧ pingIntervalOf none = 10000 := by
  exact ⟨rfl, rfl⟩

/-- Head dispatch after a dispatch at time `l` happens no earlier than
`l + interval`. -/
theorem govDispatch_head_ge (interval : Nat) (l : Nat) (subs : List (Nat × Nat)) :
    ∀ b ∈ (govDispatch interval (some l) subs).head?, l + interval ≤ b.1 := by
  cases subs with
  | nil => simp [govDispatch]
  | cons p rest =>
    cases p with
    | mk t i =>
      simp only [govDispatch, List.head?_cons, Option.mem_def, Option.some.injEq]
      intro b hb
      subst hb
      exact Nat.le_max_right t (l + interval)

/-- The governor dispatches frames in submission (FIFO) order. -/
theorem govDispatch_fifo (interval : Nat) (last : Option Nat) (subs : List (Nat × Nat)) :
    (govDispatch interval last subs).map Prod.snd = subs.map Prod.snd := by
  induction subs generalizing last with
  | nil => cases last <;> rfl
  | cons p rest ih =>
    cases p with
    | mk t i => cases last <;> simp [govDispatch, ih]

/-- Consecutive dispatches of the governor are at least `interval` apart. -/
theorem govDispatch_chain (interval : Nat) (last : Option Nat) (subs : List (Nat × Nat)) :
    List.Chain' (fun a b => a.1 + interval ≤ b.1) (govDispatch interval last subs) := by
  induction subs generalizing last with
  | nil => cases last <;> exact List.chain'_nil
  | cons p rest ih =>
    cases p with
    | mk t i =>
      cases last with
      | none =>
        rw [govDispatch, List.chain'_cons']
        exact ⟨govDispatch_head_ge interval t rest, ih (some t)⟩
      | some l =>
        rw [govDispatch, List.chain'_cons']
        exact ⟨govDispatch_head_ge interval (max t (l + interval)) rest,
          ih (some (max t (l + interval)))⟩

/-- Claim C8: under the default configuration (interval 250 ms, limit 1),
for any list of submissions — in particular N frames submitted at the same
instant — the governor's sequential schedule never places two dispatches
closer together than the interval, and dispatch order equals submission
order. -/
theorem send_governor_spacing_and_fifo (subs : List (Nat × Nat)) :
    List.Chain' (fun a b => a.1 + commandThrottleIntervalOf none ≤ b.1)
      (govDispatch (commandThrottleIntervalOf none) none subs)
    ∧ (govDispatch (commandThrottleIntervalOf none) none subs).map Prod.snd
        = subs.map Prod.snd
    ∧ commandThrottleIntervalOf none = 250 :=
  ⟨govDispatch_chain 250 none subs, govDispatch_fifo 250 none subs, rfl⟩

/-- Claim C9: when the client is not logged in, each of the four business
command methods throws `Error('Not logged in')` before building or
submitting any frame. -/
theorem not_logged_in_guard (isLoggedIn : Bool) (symbol transaction : String)
    (order : Nat) (h : isLoggedIn = false) :
    getAllSymbols isLoggedIn = .error ⟨"Not logged in"⟩
    ∧ getSymbol isLoggedIn symbol = .error ⟨"Not logged in"⟩
    ∧ startTradeTransaction isLoggedIn transaction = .error ⟨"Not logged in"⟩
    ∧ getTradeTransactionStatus isLoggedIn order = .error ⟨"Not logged in"⟩ := by
  subst h
  exact ⟨rfl, rfl, rfl, rfl⟩

/-- Witness for C9 at a logged-out client and concrete arguments. -/
theorem not_logged_in_guard_witness :
    ((false : Bool) = false)
    ∧ (getAllSymbols false = .error ⟨"Not logged in"⟩
      ∧ getSymbol false "EURUSD" = .error ⟨"Not logged in"⟩
      ∧ startTradeTransaction false "buy EURUSD 0.1" = .error ⟨"Not logged in"⟩
      ∧ getTradeTransactionStatus false 7 = .error ⟨"Not logged in"⟩) :=
  ⟨rfl, not_logged_in_guard false "EURUSD" "buy EURUSD 0.1" 7 rfl⟩

/-- Claim C10: `logout` sets `isLoggedIn` to `false` the moment the frame
is submitted, and the session flags are unchanged by whatever becomes of
the logout reply; `login` sets `isLoggedIn` and stores the stream-session
identifier exactly on a `status: true` reply and leaves the whole state
unchanged on a failed reply. -/
theorem logout_unconditional_login_conditional (s : SessState) (r : ReplyOutcome)
    (sid code descr : String) :
    (logoutSubmit s).1.isLoggedIn = false
    ∧ (logoutSubmit s).2 = { command := "logout" }
    ∧ logoutApplyReply (logoutSubmit s).1 r = (logoutSubmit s).1
    ∧ (loginApplyReply s (.success sid)).isLoggedIn = true
    ∧ (loginApplyReply s (.success sid)).streamSessionId = some sid
    ∧ loginApplyReply s (.failure code descr) = s :=
  ⟨rfl, rfl, rfl, rfl, rfl, rfl⟩

end XTB
